import Mathlib

/-!
Verification of `bench/eval_swebench.py`, a command-line driver that invokes
the SWE-bench evaluation harness as a child process and reports results.

Shallow embedding conventions:
* A parsed JSON document is a `JVal`; `json.loads` of one physical text line
  is abstracted by `PyLine`, which records the only attributes of a line the
  program inspects: whether it strips to the empty string, and the outcome of
  `json.loads` on it (raises, or yields a `JVal`).
* Python dictionaries produced by `json.loads` have distinct keys (duplicate
  keys in the JSON text are collapsed by the parser), so a JSON object is a
  key/value list with `List.lookup` for `dict.get` / `dict[...]`.
* Exceptions are `Except PyErr`; an exception that the source does not catch
  propagates out of the embedded function.
* The filesystem and the child process are a `World` record of read-only
  functions; `subprocess.run` is the application of `World.run` to the
  constructed argument vector, yielding the child's returncode.
-/

/-- A JSON value as produced by `json.loads`. -/
inductive JVal where
  | jnull
  | jbool (b : Bool)
  | jnum (n : Int)
  | jstr (s : String)
  | jarr (elems : List JVal)
  | jobj (fields : List (String × JVal))

/-- One physical line of a text file, abstracted to the attributes the
program inspects: `blank` strips to the empty string (never valid JSON),
`malformed` is non-blank text on which `json.loads` raises
`json.JSONDecodeError`, and `parsed v` is non-blank text on which
`json.loads` returns `v`. -/
inductive PyLine where
  | blank
  | malformed
  | parsed (v : JVal)

/-- Python exceptions the embedded code can raise. -/
inductive PyErr where
  /-- `json.JSONDecodeError` from `json.loads`. -/
  | jsonDecodeError
  /-- `AttributeError` from calling `.get` on a non-dict value. -/
  | attributeError
  /-- `TypeError` from subscripting a non-dict value with a string key. -/
  | typeError
deriving DecidableEq

/-- `DATASET = "princeton-nlp/SWE-bench_Lite"` -/
def DATASET : String := "princeton-nlp/SWE-bench_Lite"

/-- The argument vector built by `run_evaluation` (source lines 25-53).
`sys.executable` is supplied explicitly as `pyexe`; the `--namespace` pair is
appended only when the namespace argument is not `None`
(`if namespace is not None`), and the `--instance_ids` tail only when the
instance-id list is truthy (`if instance_ids:`, so neither `None` nor `[]`). -/
def run_evaluation_cmd (pyexe predictions_path run_id : String)
    (instance_ids : Option (List String)) (max_workers : Int)
    (ns : Option String) (cache_level : String) : List String :=
  [pyexe, "-m", "swebench.harness.run_evaluation",
   "--dataset_name", DATASET,
   "--predictions_path", predictions_path,
   "--max_workers", toString max_workers,
   "--run_id", run_id,
   "--cache_level", cache_level]
  ++ (match ns with
      | some n => ["--namespace", n]
      | none => [])
  ++ (match instance_ids with
      | some ids => if ids.isEmpty then [] else "--instance_ids" :: ids
      | none => [])

/-- `entry.get("resolved", entry.get("status", ""))` on a parsed JSON object:
the value of `"resolved"` when the key is present, else the value of
`"status"` when present, else the empty string (source line 101). -/
def statusOf (fields : List (String × JVal)) : JVal :=
  match fields.lookup "resolved" with
  | some v => v
  | none =>
    match fields.lookup "status" with
    | some v => v
    | none => .jstr ""

/-- `status is True or status == "RESOLVED_FULL"` (source line 102; Python
`is True` holds only for the boolean `True`, and `==` against a string
holds only for an equal string). -/
def isPassStatus : JVal → Bool
  | .jbool true => true
  | .jstr s => s == "RESOLVED_FULL"
  | _ => false

/-- The pass/fail classification applied to one record of
`instance_results.jsonl` (source lines 101-102). -/
def entryPass (fields : List (String × JVal)) : Bool :=
  isPassStatus (statusOf fields)

/-- The tenths-of-a-percent figure shown by `{100 * resolved / total:.1f}`:
`1000 * resolved / total` rounded to the nearest integer, ties to even.
This is the exact-rational idealization of CPython's float formatting; the
two agree wherever the double rounding error does not cross a decimal
boundary (in particular on every value this development evaluates). -/
def roundTenthsOfPercent (resolved total : Nat) : Nat :=
  let num := 1000 * resolved
  let q := num / total
  let r := num % total
  if 2 * r > total then q + 1
  else if 2 * r < total then q
  else if q % 2 = 0 then q else q + 1

/-- The percentage text of the summary line, one digit after the point. -/
def pctString (resolved total : Nat) : String :=
  let tenths := roundTenthsOfPercent resolved total
  toString (tenths / 10) ++ "." ++ toString (tenths % 10)

/-- The aggregate line `Resolved: {resolved}/{total} ({...:.1f}%)`
(source line 109). -/
def resolvedLine (resolved total : Nat) : String :=
  "Resolved: " ++ toString resolved ++ "/" ++ toString total
    ++ " (" ++ pctString resolved total ++ "%)"

/-- What the per-instance section of `print_results` prints: one
`(is-pass, displayed instance id)` event per counted record, the final
counters, and the aggregate line when one is printed. -/
structure InstSection where
  events : List (Bool × JVal)
  resolved : Nat
  total : Nat
  summaryLine : Option String

/-- The loop over `instance_results.jsonl` (source lines 97-109).
Blank lines are skipped; `json.loads` on a malformed line raises an
uncaught `JSONDecodeError`; `.get` on a non-dict parsed value raises an
uncaught `AttributeError`; otherwise the record is counted and classified,
and after the loop the aggregate line is printed when `total` is truthy. -/
def instLoop : List PyLine → Nat → Nat → List (Bool × JVal) →
    Except PyErr InstSection
  | [], resolved, total, evs =>
      .ok ⟨evs, resolved, total,
           if total = 0 then none else some (resolvedLine resolved total)⟩
  | .blank :: rest, resolved, total, evs => instLoop rest resolved total evs
  | .malformed :: _, _, _, _ => .error .jsonDecodeError
  | .parsed (.jobj fields) :: rest, resolved, total, evs =>
      let idv := (fields.lookup "instance_id").getD (.jstr "?")
      if entryPass fields then
        instLoop rest (resolved + 1) (total + 1) (evs ++ [(true, idv)])
      else
        instLoop rest resolved (total + 1) (evs ++ [(false, idv)])
  | .parsed _ :: _, _, _, _ => .error .attributeError

/-- The per-instance section computed from the whole log. -/
def instRun (lines : List PyLine) : Except PyErr InstSection :=
  instLoop lines 0 0 []

/-- One printed line of the top-level results summary (source lines 82-91):
a flat `key: value`, a one-level-nested indented block, or the
`json.dumps(results, indent=2)` fallback for a non-dict document. -/
inductive TopLine where
  | flat (key : String) (value : JVal)
  | nested (key : String) (kvs : List (String × JVal))
  | dump (v : JVal)

/-- The top-level rendering of the parsed `results.json` document
(source lines 82-91). -/
def renderResults : JVal → List TopLine
  | .jobj fields =>
      fields.map (fun kv =>
        match kv.2 with
        | .jobj kvs => TopLine.nested kv.1 kvs
        | v => TopLine.flat kv.1 v)
  | v => [TopLine.dump v]

/-- What `print_results` prints: either the not-found notice, or the header
plus the rendered summary plus, when `instance_results.jsonl` exists, its
per-instance section. -/
inductive Report where
  /-- `No results found at {results_file}` followed by an early return. -/
  | notFound (path : String)
  | found (top : List TopLine) (inst : Option InstSection)

/-- A results directory in which a `results.json` exists:
the outcome of `json.loads` on that file (`none` means it raises), and the
content of `instance_results.jsonl` (`none` means the file is absent). -/
structure ResultsDir where
  resultsParse : Option JVal
  instLines : Option (List PyLine)

/-- The read-only environment: the Python interpreter path
(`sys.executable`), the predictions-file checks and contents, the results
directories visible to the reporter, and the child process
(`subprocess.run`) as its returncode function. -/
structure World where
  pyexe : String
  fileExists : String → Bool
  predictions : String → List PyLine
  /-- `evaluation_results/{run_id}/results.json` when it exists. -/
  byRunId : String → Option ResultsDir
  /-- `Path("evaluation_results").rglob("results.json")` hits, in order. -/
  rglobHits : List ResultsDir
  run : List String → Int

/-- The conventional results path `evaluation_results/{run_id}/results.json`
(source lines 60-61). -/
def conventionalPath (run_id : String) : String :=
  "evaluation_results/" ++ run_id ++ "/results.json"

/-- `print_results` (source lines 58-109): look up the conventional path,
fall back to the first recursive-glob hit, report absence when neither
exists; otherwise `json.loads` the file (raising on malformed content),
render the top-level summary, and process `instance_results.jsonl` when it
exists. -/
def print_results (w : World) (run_id : String) : Except PyErr Report :=
  match (match w.byRunId run_id with
         | some d => some d
         | none => w.rglobHits.head?) with
  | none => .ok (.notFound (conventionalPath run_id))
  | some d =>
    match d.resultsParse with
    | none => .error .jsonDecodeError
    | some results =>
      let top := renderResults results
      match d.instLines with
      | none => .ok (.found top none)
      | some lines => (instRun lines).map (fun sec => .found top (some sec))

/-- The accumulation loop of `get_instance_ids_from_predictions`
(source lines 114-122): blank lines are skipped by the `if line:` guard; a
malformed line's `JSONDecodeError` is caught by the `except` clause and the
line dropped; on a parsed object, `["instance_id"]` either appends the value
or raises a `KeyError` that the `except` clause catches; on a parsed
non-object, string subscripting raises an uncaught `TypeError`. -/
def getIdsLoop : List PyLine → List JVal → Except PyErr (List JVal)
  | [], acc => .ok acc
  | .blank :: rest, acc => getIdsLoop rest acc
  | .malformed :: rest, acc => getIdsLoop rest acc
  | .parsed (.jobj fields) :: rest, acc =>
      match fields.lookup "instance_id" with
      | some v => getIdsLoop rest (acc ++ [v])
      | none => getIdsLoop rest acc
  | .parsed _ :: _, _ => .error .typeError

/-- `get_instance_ids_from_predictions` (source lines 112-123). -/
def get_instance_ids_from_predictions (lines : List PyLine) :
    Except PyErr (List JVal) :=
  getIdsLoop lines []

/-- The parsed command-line arguments (`argparse`, source lines 126-176):
`predictions` is the optional positional, `instance_ids` accumulates
repeated `--instance` flags (`None` when none given), `max_workers`
defaults to `1`, `run_id` to `None`, `ns` models `--namespace` (default
`""`), `cache_level` defaults to `"instance"`, `validate` is a flag, and
`results_only` is the optional `--results-only RUN_ID`. -/
structure Args where
  predictions : Option String
  instance_ids : Option (List String)
  max_workers : Int
  run_id : Option String
  ns : String
  cache_level : String
  validate : Bool
  results_only : Option String

/-- Python `x or d` for an optional string (`None` and `""` are falsy). -/
def pyOrStr (x : Option String) (d : String) : String :=
  match x with
  | some s => if s.isEmpty then d else s
  | none => d

/-- Python `x or d` for an optional list (`None` and `[]` are falsy). -/
def pyOrList (x : Option (List String)) (d : List String) : List String :=
  match x with
  | some l => if l.isEmpty then d else l
  | none => d

/-- Split a character list on a separator character. -/
def splitOnChar (sep : Char) : List Char → List (List Char)
  | [] => [[]]
  | c :: rest =>
    let r := splitOnChar sep rest
    if c = sep then [] :: r
    else
      match r with
      | [] => [[c]]
      | h :: t => (c :: h) :: t

/-- The final path component: the text after the last `/`, ignoring empty
trailing components as `pathlib` normalization does. -/
def basename (p : String) : String :=
  match ((splitOnChar '/' p.toList).filter (fun s => s ≠ [])).getLast? with
  | some s => String.mk s
  | none => p

/-- `Path(p).stem`: the final component without its suffix, where
`pathlib` takes the suffix from `name.rfind('.')` only when the dot sits
strictly inside the name (`0 < i < len(name) - 1`). -/
def stem (p : String) : String :=
  let n := basename p
  let cs := n.toList
  match cs.reverse.findIdx? (fun c => c = '.') with
  | none => n
  | some r =>
    let i := cs.length - 1 - r
    if 0 < i ∧ i < cs.length - 1 then String.mk (cs.take i) else n

/-- One semantic unit of the program's standard output, carrying the data
interpolated into the corresponding `print` call. -/
inductive OutLine where
  /-- `Validating setup with gold patches for: {instance_ids}` (line 188). -/
  | validating (ids : List String)
  /-- The predictions info block: path, `len(all_ids)`, `len(eval_ids)`
  (lines 208-211). -/
  | predInfo (path : String) (nAll nEval : Nat)
  /-- `Running: {' '.join(cmd)}` printed inside `run_evaluation` (line 51). -/
  | runningCmd (cmd : List String)
  /-- `ERROR: predictions file not found: {path}` (line 202). -/
  | predNotFound (path : String)
  /-- Everything `print_results` prints. -/
  | report (r : Report)

/-- How the interpreter terminates. -/
inductive ExitKind where
  /-- `sys.exit(n)`, or falling off `main` (status `0`). -/
  | code (n : Int)
  /-- `parser.error(...)`: usage plus message on stderr, exit status `2`. -/
  | usageError
  /-- An uncaught exception: traceback on stderr, exit status `1`. -/
  | uncaught (e : PyErr)

/-- The observable outcome of one program run: what was printed, which
child commands were spawned, and how the interpreter exited. -/
structure MainOut where
  printed : List OutLine
  spawned : List (List String)
  exit : ExitKind

/-- The process exit status an `ExitKind` produces. -/
def exitStatus : ExitKind → Int
  | .code n => n
  | .usageError => 2
  | .uncaught _ => 1

/-- Does an output line print a found-results summary? -/
def isFoundReport : OutLine → Bool
  | .report (.found _ _) => true
  | _ => false

/-- Was the results summary printed during the run? -/
def printsSummary (out : MainOut) : Bool :=
  out.printed.any isFoundReport

/-- The shared tail of the validate and normal branches (source lines
192-195 and 224-227): run the child, and when `result.returncode == 0`
call `print_results` (whose exceptions propagate), then
`sys.exit(result.returncode)`. -/
def invoke_and_report (w : World) (pre : List OutLine) (cmd : List String)
    (run_id : String) : MainOut :=
  let rc := w.run cmd
  if rc = 0 then
    match print_results w run_id with
    | .ok r => ⟨pre ++ [.runningCmd cmd, .report r], [cmd], .code rc⟩
    | .error e => ⟨pre ++ [.runningCmd cmd], [cmd], .uncaught e⟩
  else ⟨pre ++ [.runningCmd cmd], [cmd], .code rc⟩

/-- The validate branch of `main` (source lines 185-195): default the run
id to `"validate-gold"` and the instance filter to the fixed sample
instance, then invoke with predictions source `"gold"`. -/
def main_validate (args : Args) (w : World) : MainOut :=
  let run_id := pyOrStr args.run_id "validate-gold"
  let ids := pyOrList args.instance_ids ["sympy__sympy-20590"]
  let cmd := run_evaluation_cmd w.pyexe "gold" run_id (some ids)
    args.max_workers (some args.ns) args.cache_level
  invoke_and_report w [.validating ids] cmd run_id

/-- The normal branch of `main` (source lines 197-227): `parser.error` when
the predictions argument is falsy; exit `1` when the path does not exist;
otherwise inspect the file (uncaught `TypeError` possible), derive the run
id from the filename stem when `--run-id` is falsy, and invoke. -/
def main_normal (args : Args) (w : World) : MainOut :=
  match args.predictions with
  | none => ⟨[], [], .usageError⟩
  | some p =>
    if p.isEmpty then ⟨[], [], .usageError⟩
    else if w.fileExists p then
      match get_instance_ids_from_predictions (w.predictions p) with
      | .error e => ⟨[], [], .uncaught e⟩
      | .ok all_ids =>
        let evalCount :=
          match args.instance_ids with
          | some l => if l.isEmpty then all_ids.length else l.length
          | none => all_ids.length
        let run_id := pyOrStr args.run_id (stem p)
        let cmd := run_evaluation_cmd w.pyexe p run_id args.instance_ids
          args.max_workers (some args.ns) args.cache_level
        invoke_and_report w [.predInfo p all_ids.length evalCount] cmd run_id
    else ⟨[.predNotFound p], [], .code 1⟩

/-- The non-results-only part of `main`: the validate branch has priority
over the normal branch (source lines 185 and 197). -/
def main_run2 (args : Args) (w : World) : MainOut :=
  if args.validate then main_validate args w else main_normal args w

/-- `main` (source lines 126-227): a truthy `--results-only` only prints a
previous run's results and returns (exit `0`, exceptions from the reporter
propagating); otherwise dispatch to the validate or normal branch. -/
def main_run (args : Args) (w : World) : MainOut :=
  match args.results_only with
  | some rid =>
    if rid.isEmpty then main_run2 args w
    else
      match print_results w rid with
      | .ok r => ⟨[.report r], [], .code 0⟩
      | .error e => ⟨[], [], .uncaught e⟩
  | none => main_run2 args w

/-- A predictions-file line on which the inspector's subscript cannot raise
`TypeError`: blank, malformed, or parsed to a JSON object. -/
def lineIdSafe : PyLine → Bool
  | .parsed (.jobj _) => true
  | .parsed _ => false
  | _ => true

/-- The identifier the inspector collects from one line, when it collects
one: the `"instance_id"` value of a parsed JSON object. -/
def extractId : PyLine → Option JVal
  | .parsed (.jobj fields) => fields.lookup "instance_id"
  | _ => none

/-- The pass condition as the claim words it, stated from the spec for
comparison with the code's `entryPass`: the resolution flag is the boolean
true, or the status field equals `"RESOLVED_FULL"`. -/
def claimPassCond (fields : List (String × JVal)) : Bool :=
  (match fields.lookup "resolved" with
   | some (.jbool true) => true
   | _ => false)
  || (match fields.lookup "status" with
      | some (.jstr s) => s == "RESOLVED_FULL"
      | _ => false)

/-- A record whose resolution flag is false while its status field is
`"RESOLVED_FULL"`. -/
def entryMixed : List (String × JVal) :=
  [("instance_id", .jstr "d"), ("resolved", .jbool false),
   ("status", .jstr "RESOLVED_FULL")]

/-- The three-line `instance_results.jsonl` log of the spec's example. -/
def log3 : List PyLine :=
  [.parsed (.jobj [("instance_id", .jstr "a"), ("resolved", .jbool true)]),
   .parsed (.jobj [("instance_id", .jstr "b"),
                   ("status", .jstr "RESOLVED_FULL")]),
   .parsed (.jobj [("instance_id", .jstr "c"), ("resolved", .jbool false)])]

/-- A predictions file mixing two valid records, a malformed line, a blank
line, and an object without the identifier field. -/
def predLinesEx : List PyLine :=
  [.parsed (.jobj [("instance_id", .jstr "django__django-11039"),
                   ("model_patch", .jstr "diff --git a b")]),
   .malformed,
   .blank,
   .parsed (.jobj [("model_patch", .jstr "diff --git c d")]),
   .parsed (.jobj [("instance_id", .jstr "sympy__sympy-20590"),
                   ("model_patch", .jstr "diff --git e f")])]

/-- An invocation with no arguments at all. -/
def args_nopred : Args := ⟨none, none, 1, none, "", "instance", false, none⟩

/-- `--validate` with no other flags. -/
def args_validate : Args := ⟨none, none, 1, none, "", "instance", true, none⟩

/-- A predictions path with no other flags. -/
def args_badpath : Args :=
  ⟨some "missing.jsonl", none, 1, none, "", "instance", false, none⟩

/-- `--results-only missing-run`. -/
def args_ronly : Args :=
  ⟨none, none, 1, none, "", "instance", false, some "missing-run"⟩

/-- The child command `--validate` constructs with no other flags given. -/
def cmd_validate : List String :=
  run_evaluation_cmd "python" "gold" "validate-gold"
    (some ["sympy__sympy-20590"]) 1 (some "") "instance"

/-- An empty environment: no files, no results, every child succeeds. -/
def w0 : World :=
  ⟨"python", fun _ => false, fun _ => [], fun _ => none, [], fun _ => 0⟩

/-- An environment whose results directory holds a well-formed
`results.json` and an `instance_results.jsonl` consisting of one malformed
line. -/
def wMalformedLog : World :=
  ⟨"python", fun _ => false, fun _ => [],
   fun _ => some ⟨some (.jobj [("resolved", .jnum 3)]),
                  some [PyLine.malformed]⟩,
   [], fun _ => 0⟩

/-- An environment where every child succeeds but `results.json` is
malformed JSON. -/
def w_run0_badjson : World :=
  ⟨"python", fun _ => false, fun _ => [], fun _ => some ⟨none, none⟩,
   [], fun _ => 0⟩

/-- An environment where every child exits with status `5`. -/
def w_run5 : World :=
  ⟨"python", fun _ => false, fun _ => [], fun _ => none, [], fun _ => 5⟩

/-- The spawn-shape invariant of `main`: either no child was spawned, or
exactly one was, built by `run_evaluation_cmd` with the parsed namespace
argument, its outcome given by `invoke_and_report`, and nothing printed
before the invocation is a found-results summary. -/
def SpawnShape (args : Args) (w : World) (out : MainOut) : Prop :=
  out.spawned = [] ∨
  ∃ pre rid pp ids cmd,
    cmd = run_evaluation_cmd w.pyexe pp rid ids args.max_workers
      (some args.ns) args.cache_level ∧
    pre.any isFoundReport = false ∧
    out = invoke_and_report w pre cmd rid

lemma invoke_spawned (w : World) (pre : List OutLine) (cmd : List String)
    (rid : String) : (invoke_and_report w pre cmd rid).spawned = [cmd] := by
  unfold invoke_and_report
  by_cases h : w.run cmd = 0
  · simp only [h, if_pos rfl]
    cases hp : print_results w rid <;> simp
  · simp [h]

lemma invoke_props (w : World) (pre : List OutLine) (cmd : List String)
    (rid : String) (hpre : pre.any isFoundReport = false) :
    (w.run cmd ≠ 0 →
      (invoke_and_report w pre cmd rid).exit = .code (w.run cmd) ∧
      printsSummary (invoke_and_report w pre cmd rid) = false) ∧
    (printsSummary (invoke_and_report w pre cmd rid) = true →
      w.run cmd = 0 ∧ (invoke_and_report w pre cmd rid).exit = .code 0) ∧
    (w.run cmd = 0 →
      (invoke_and_report w pre cmd rid).exit = .code 0 ∨
      ∃ e, (invoke_and_report w pre cmd rid).exit = .uncaught e) := by
  refine ⟨?_, ?_, ?_⟩
  · intro hne
    simp only [invoke_and_report]
    simp [hne, printsSummary, List.any_append, hpre, isFoundReport]
  · intro hs
    by_cases h : w.run cmd = 0
    · refine ⟨h, ?_⟩
      revert hs
      simp only [invoke_and_report, h, if_pos rfl]
      cases hp : print_results w rid with
      | ok r => intro _; rfl
      | error e =>
        simp [printsSummary, List.any_append, hpre, isFoundReport]
    · exfalso
      revert hs
      simp only [invoke_and_report, h, if_false]
      simp [printsSummary, List.any_append, hpre, isFoundReport]
  · intro h0
    simp only [invoke_and_report, h0, if_pos rfl]
    cases hp : print_results w rid with
    | ok r => exact Or.inl rfl
    | error e => exact Or.inr ⟨e, rfl⟩

lemma shape_validate (args : Args) (w : World) :
    SpawnShape args w (main_validate args w) :=
  Or.inr ⟨[.validating (pyOrList args.instance_ids ["sympy__sympy-20590"])],
    pyOrStr args.run_id "validate-gold", "gold",
    some (pyOrList args.instance_ids ["sympy__sympy-20590"]),
    run_evaluation_cmd w.pyexe "gold" (pyOrStr args.run_id "validate-gold")
      (some (pyOrList args.instance_ids ["sympy__sympy-20590"]))
      args.max_workers (some args.ns) args.cache_level,
    rfl, rfl, rfl⟩

lemma shape_normal (args : Args) (w : World) :
    SpawnShape args w (main_normal args w) := by
  unfold main_normal
  cases hpred : args.predictions with
  | none => exact Or.inl rfl
  | some p =>
    by_cases hp : p.isEmpty
    · simp only [hp, if_pos rfl]
      exact Or.inl rfl
    · simp only [hp, Bool.false_eq_true, if_false]
      by_cases hex : w.fileExists p
      · simp only [hex, if_pos rfl]
        cases hids : get_instance_ids_from_predictions (w.predictions p) with
        | error e => exact Or.inl rfl
        | ok all_ids =>
          refine Or.inr ⟨[OutLine.predInfo p all_ids.length
              (match args.instance_ids with
               | some l => if l.isEmpty then all_ids.length else l.length
               | none => all_ids.length)],
            pyOrStr args.run_id (stem p), p, args.instance_ids,
            run_evaluation_cmd w.pyexe p (pyOrStr args.run_id (stem p))
              args.instance_ids args.max_workers (some args.ns)
              args.cache_level,
            rfl, rfl, rfl⟩
      · simp only [hex, Bool.false_eq_true, if_false]
        exact Or.inl rfl

lemma shape_run2 (args : Args) (w : World) :
    SpawnShape args w (main_run2 args w) := by
  unfold main_run2
  by_cases hv : args.validate
  · simp only [hv, if_pos rfl]
    exact shape_validate args w
  · simp only [hv, Bool.false_eq_true, if_false]
    exact shape_normal args w

lemma shape_main_run (args : Args) (w : World) :
    SpawnShape args w (main_run args w) := by
  unfold main_run
  cases hro : args.results_only with
  | none => exact shape_run2 args w
  | some rid =>
    by_cases hr : rid.isEmpty
    · simp only [hr, if_pos rfl]
      exact shape_run2 args w
    · simp only [hr, Bool.false_eq_true, if_false]
      cases hp : print_results w rid with
      | ok r => exact Or.inl rfl
      | error e => exact Or.inl rfl

lemma mem_namespace_cmd (pyexe pp rid : String) (ids : Option (List String))
    (mw : Int) (n cl : String) :
    "--namespace" ∈ run_evaluation_cmd pyexe pp rid ids mw (some n) cl := by
  unfold run_evaluation_cmd
  refine List.mem_append_left _ (List.mem_append_right _ ?_)
  simp

lemma instLoop_ok_summary (lines : List PyLine) : ∀ (r t : Nat)
    (evs : List (Bool × JVal)) (sec : InstSection),
    instLoop lines r t evs = .ok sec →
    (sec.summaryLine = none ↔ sec.total = 0) := by
  induction lines with
  | nil =>
    intro r t evs sec h
    simp only [instLoop] at h
    injection h with h
    subst h
    by_cases ht : t = 0 <;> simp [ht, resolvedLine]
  | cons head rest ih =>
    intro r t evs sec h
    cases head with
    | blank => exact ih r t evs sec h
    | malformed => exact Except.noConfusion h
    | parsed v =>
      cases v with
      | jobj fields =>
        simp only [instLoop] at h
        by_cases hp : entryPass fields
        · rw [if_pos hp] at h
          exact ih _ _ _ sec h
        · rw [if_neg hp] at h
          exact ih _ _ _ sec h
      | jnull => exact Except.noConfusion h
      | jbool b => exact Except.noConfusion h
      | jnum n => exact Except.noConfusion h
      | jstr s => exact Except.noConfusion h
      | jarr l => exact Except.noConfusion h

lemma instLoop_all_blank (lines : List PyLine)
    (hb : ∀ l ∈ lines, l = PyLine.blank) : ∀ (r t : Nat)
    (evs : List (Bool × JVal)),
    instLoop lines r t evs =
      .ok ⟨evs, r, t,
           if t = 0 then none else some (resolvedLine r t)⟩ := by
  induction lines with
  | nil => intro r t evs; rfl
  | cons head rest ih =>
    intro r t evs
    have hh : head = PyLine.blank := hb head (List.mem_cons_self head rest)
    subst hh
    simp only [instLoop]
    exact ih (fun l hl => hb l (List.mem_cons_of_mem _ hl)) r t evs

lemma getIdsLoop_ok (lines : List PyLine) :
    ∀ (acc : List JVal), (∀ l ∈ lines, lineIdSafe l = true) →
    getIdsLoop lines acc = .ok (acc ++ lines.filterMap extractId) := by
  induction lines with
  | nil => intro acc _; simp [getIdsLoop]
  | cons head rest ih =>
    intro acc h
    have hh := h head (List.mem_cons_self head rest)
    have hrest : ∀ l ∈ rest, lineIdSafe l = true :=
      fun l hl => h l (List.mem_cons_of_mem _ hl)
    cases head with
    | blank =>
      simp only [getIdsLoop, List.filterMap_cons]
      simpa [extractId] using ih acc hrest
    | malformed =>
      simp only [getIdsLoop, List.filterMap_cons]
      simpa [extractId] using ih acc hrest
    | parsed v =>
      cases v with
      | jobj fields =>
        simp only [getIdsLoop, List.filterMap_cons]
        cases hl : fields.lookup "instance_id" with
        | some v' =>
          simp [extractId, hl, ih (acc ++ [v']) hrest, List.append_assoc]
        | none =>
          simp [extractId, hl, ih acc hrest]
      | jnull => simp [lineIdSafe] at hh
      | jbool b => simp [lineIdSafe] at hh
      | jnum n => simp [lineIdSafe] at hh
      | jstr s => simp [lineIdSafe] at hh
      | jarr l => simp [lineIdSafe] at hh

/-- C1 (counterexample): an instance-results log consisting of one
malformed JSON line makes the reporter raise an uncaught
`json.JSONDecodeError` instead of silently skipping the line. -/
theorem c1_counterexample :
    print_results wMalformedLog "run1" = .error .jsonDecodeError := rfl

/-- C1 (amended): in the reporter's loop over the instance-results log, an
empty (blank) line is silently skipped and contributes nothing to the
resolved/total counts, but a line that is malformed JSON makes the loop
raise an uncaught `json.JSONDecodeError`, aborting the report. -/
theorem c1_blank_skipped_malformed_raises :
    ∀ (rest : List PyLine) (r t : Nat) (evs : List (Bool × JVal)),
    instLoop (PyLine.blank :: rest) r t evs = instLoop rest r t evs ∧
    instLoop (PyLine.malformed :: rest) r t evs =
      .error PyErr.jsonDecodeError :=
  fun _ _ _ _ => ⟨rfl, rfl⟩

/-- C1 (witness): the amended statement at a concrete log. -/
theorem c1_blank_skipped_malformed_raises_witness :
    instLoop [PyLine.blank] 0 0 [] = instLoop [] 0 0 [] ∧
    instLoop [PyLine.malformed] 0 0 [] = .error PyErr.jsonDecodeError :=
  c1_blank_skipped_malformed_raises [] 0 0 []

/-- C2 (counterexample): invoked with no predictions argument in normal
mode, the program exits with status `2` (the `argparse` `parser.error`
status), not `1` as claimed; no child process is spawned. -/
theorem c2_counterexample :
    exitStatus (main_run args_nopred w0).exit = 2 ∧
    exitStatus (main_run args_nopred w0).exit ≠ 1 ∧
    (main_run args_nopred w0).spawned = [] :=
  ⟨rfl, by decide, rfl⟩

/-- C2 (amended): in normal mode with no predictions argument, the program
prints a usage error via `parser.error` and exits with status `2`, and no
child process is spawned. -/
theorem c2_missing_predictions_usage_error (args : Args) (w : World)
    (h1 : args.results_only = none) (h2 : args.validate = false)
    (h3 : args.predictions = none) :
    main_run args w = ⟨[], [], .usageError⟩ ∧
    exitStatus (main_run args w).exit = 2 := by
  have hmain : main_run args w = ⟨[], [], .usageError⟩ := by
    simp [main_run, main_run2, main_normal, h1, h2, h3]
  refine ⟨hmain, ?_⟩
  rw [hmain]
  rfl

/-- C2 (witness): the amended statement at a concrete invocation. -/
theorem c2_missing_predictions_usage_error_witness :
    main_run args_nopred w0 = ⟨[], [], .usageError⟩ ∧
    exitStatus (main_run args_nopred w0).exit = 2 :=
  c2_missing_predictions_usage_error args_nopred w0 rfl rfl rfl

/-- C3 (counterexample): a predictions line that is valid JSON but not an
object (here the number `3`) lacks the identifier field, yet the inspector
raises an uncaught `TypeError` instead of silently dropping it. -/
theorem c3_counterexample :
    get_instance_ids_from_predictions [PyLine.parsed (.jnum 3)] =
      .error PyErr.typeError := rfl

/-- C3 (amended): on a predictions file in which every line is blank,
malformed, or a JSON object, the inspector returns exactly the
`"instance_id"` values of the objects that have one, in file order; blank
lines, malformed lines and objects lacking the field are silently dropped.
(A line parsing to a non-object JSON value instead raises an uncaught
`TypeError`.) -/
theorem c3_ids_in_order (lines : List PyLine)
    (h : ∀ l ∈ lines, lineIdSafe l = true) :
    get_instance_ids_from_predictions lines =
      .ok (lines.filterMap extractId) := by
  unfold get_instance_ids_from_predictions
  simpa using getIdsLoop_ok lines [] h

/-- C3 (witness): the amended statement on a concrete file with two valid
records, one malformed line, one blank line and one object lacking the
field, yielding exactly the two identifiers in file order. -/
theorem c3_ids_in_order_witness :
    (∀ l ∈ predLinesEx, lineIdSafe l = true) ∧
    get_instance_ids_from_predictions predLinesEx =
      .ok [.jstr "django__django-11039", .jstr "sympy__sympy-20590"] := by
  refine ⟨by decide, ?_⟩
  rw [c3_ids_in_order predLinesEx (by decide)]
  rfl

/-- C4 (counterexample): for the record
`{"instance_id":"d","resolved":false,"status":"RESOLVED_FULL"}` the claim's
rule (resolution flag true, or status field `"RESOLVED_FULL"`) classifies
PASS, but the code classifies FAIL: the present `"resolved"` key shadows
the `"status"` key. -/
theorem c4_counterexample :
    entryPass entryMixed = false ∧ claimPassCond entryMixed = true :=
  ⟨rfl, rfl⟩

/-- C4 (amended): a record is classified PASS exactly when the fallback
status value (the `"resolved"` value if that key is present, else the
`"status"` value if present, else `""`) is the boolean true or the string
`"RESOLVED_FULL"`; on the spec's three-line log the reporter emits
PASS a, PASS b, FAIL c and the line `Resolved: 2/3 (66.7%)`. -/
theorem c4_classification :
    (∀ fields, entryPass fields = true ↔
      (statusOf fields = .jbool true ∨
       statusOf fields = .jstr "RESOLVED_FULL")) ∧
    instRun log3 =
      .ok ⟨[(true, .jstr "a"), (true, .jstr "b"), (false, .jstr "c")],
           2, 3, some "Resolved: 2/3 (66.7%)"⟩ := by
  constructor
  · intro fields
    unfold entryPass
    cases hv : statusOf fields with
    | jbool b => cases b <;> simp [isPassStatus]
    | jstr s => simp [isPassStatus]
    | jnull => simp [isPassStatus]
    | jnum n => simp [isPassStatus]
    | jarr l => simp [isPassStatus]
    | jobj f => simp [isPassStatus]
  · rfl

/-- C4 (witness): the classification rule at a concrete record. -/
theorem c4_classification_witness :
    entryPass [("resolved", JVal.jbool true)] = true ↔
      (statusOf [("resolved", JVal.jbool true)] = .jbool true ∨
       statusOf [("resolved", JVal.jbool true)] = .jstr "RESOLVED_FULL") :=
  c4_classification.1 [("resolved", JVal.jbool true)]

/-- C5 (counterexample): in validate mode with every child succeeding but a
malformed `results.json`, the child exits `0` yet the program's exit status
is `1` (uncaught `JSONDecodeError` in the reporter) and no summary is
printed — refuting both that the exit status always equals the child's and
that the summary is printed whenever the child exits `0`. -/
theorem c5_counterexample :
    (main_run args_validate w_run0_badjson).spawned = [cmd_validate] ∧
    w_run0_badjson.run cmd_validate = 0 ∧
    exitStatus (main_run args_validate w_run0_badjson).exit = 1 ∧
    printsSummary (main_run args_validate w_run0_badjson) = false :=
  ⟨rfl, rfl, rfl, rfl⟩

/-- C5 (amended): whenever normal or validate mode spawns the child
command, a non-zero child exit is propagated unchanged as the program's
exit status with no summary printed; a summary is printed only if the
child exited `0` (and then the program also exits `0`); and on a zero
child exit the program either exits `0` or aborts with an uncaught
reporter exception. -/
theorem c5_exit_and_summary (args : Args) (w : World) (cmd : List String)
    (h : (main_run args w).spawned = [cmd]) :
    (w.run cmd ≠ 0 →
      (main_run args w).exit = .code (w.run cmd) ∧
      printsSummary (main_run args w) = false) ∧
    (printsSummary (main_run args w) = true →
      w.run cmd = 0 ∧ (main_run args w).exit = .code 0) ∧
    (w.run cmd = 0 →
      (main_run args w).exit = .code 0 ∨
      ∃ e, (main_run args w).exit = .uncaught e) := by
  rcases shape_main_run args w with hnil | ⟨pre, rid, pp, ids, cmd', hcmd, hpre, hout⟩
  · rw [hnil] at h
    exact absurd h (by simp)
  · have hsp : (main_run args w).spawned = [cmd'] := by
      rw [hout]
      exact invoke_spawned w pre cmd' rid
    rw [hsp] at h
    injection h with hce _
    subst hce
    rw [hout]
    exact invoke_props w pre cmd' rid hpre

/-- C5 (witness): the amended statement where the child exits `5`. -/
theorem c5_exit_and_summary_witness :
    (w_run5.run cmd_validate ≠ 0 →
      (main_run args_validate w_run5).exit = .code (w_run5.run cmd_validate) ∧
      printsSummary (main_run args_validate w_run5) = false) ∧
    (printsSummary (main_run args_validate w_run5) = true →
      w_run5.run cmd_validate = 0 ∧
      (main_run args_validate w_run5).exit = .code 0) ∧
    (w_run5.run cmd_validate = 0 →
      (main_run args_validate w_run5).exit = .code 0 ∨
      ∃ e, (main_run args_validate w_run5).exit = .uncaught e) :=
  c5_exit_and_summary args_validate w_run5 cmd_validate rfl

/-- C6 (confirmed): `--validate` with no `--instance` flags spawns exactly
one child command, with predictions source the sentinel `"gold"` and the
instance filter defaulted to the single sample instance
`sympy__sympy-20590`. -/
theorem c6_validate_defaults (args : Args) (w : World)
    (h1 : args.results_only = none) (h2 : args.validate = true)
    (h3 : args.instance_ids = none) :
    (main_run args w).spawned =
      [run_evaluation_cmd w.pyexe "gold" (pyOrStr args.run_id "validate-gold")
        (some ["sympy__sympy-20590"]) args.max_workers (some args.ns)
        args.cache_level] := by
  simp [main_run, main_run2, main_validate, h1, h2, h3, pyOrList,
    invoke_spawned]

/-- C6 (witness): the defaults at a concrete bare `--validate` invocation. -/
theorem c6_validate_defaults_witness :
    (main_run args_validate w0).spawned =
      [run_evaluation_cmd "python" "gold" (pyOrStr none "validate-gold")
        (some ["sympy__sympy-20590"]) 1 (some "") "instance"] :=
  c6_validate_defaults args_validate w0 rfl rfl rfl

/-- C7 (confirmed): in normal mode, a (non-empty) predictions path that
does not exist on disk makes the program print the error line naming that
path and exit with status `1`, spawning no child process. -/
theorem c7_missing_file (args : Args) (w : World) (p : String)
    (h1 : args.results_only = none) (h2 : args.validate = false)
    (h3 : args.predictions = some p) (h4 : p.isEmpty = false)
    (h5 : w.fileExists p = false) :
    main_run args w = ⟨[.predNotFound p], [], .code 1⟩ := by
  simp [main_run, main_run2, main_normal, h1, h2, h3, h4, h5]

/-- C7 (witness): a concrete nonexistent path. -/
theorem c7_missing_file_witness :
    main_run args_badpath w0 =
      ⟨[.predNotFound "missing.jsonl"], [], .code 1⟩ :=
  c7_missing_file args_badpath w0 "missing.jsonl" rfl rfl rfl rfl rfl

/-- C8 (confirmed): `--results-only` naming a run with no results file at
the conventional path and no recursive-glob hit prints the not-found
notice for the conventional path and exits `0`, spawning no child
process. -/
theorem c8_results_only_missing (args : Args) (w : World) (rid : String)
    (h1 : args.results_only = some rid) (h2 : rid.isEmpty = false)
    (h3 : w.byRunId rid = none) (h4 : w.rglobHits = []) :
    main_run args w =
      ⟨[.report (.notFound (conventionalPath rid))], [], .code 0⟩ := by
  simp [main_run, h1, h2, print_results, h3, h4]

/-- C8 (witness): a concrete `--results-only missing-run` invocation. -/
theorem c8_results_only_missing_witness :
    main_run args_ronly w0 =
      ⟨[.report (.notFound (conventionalPath "missing-run"))], [],
       .code 0⟩ :=
  c8_results_only_missing args_ronly w0 "missing-run" rfl rfl rfl rfl

/-- C9 (confirmed): every child command the CLI entry point spawns
contains the `--namespace` flag: the invoker omits it only for a `None`
namespace, and every CLI path passes the parsed string (default `""`). -/
theorem c9_namespace_flag_always (args : Args) (w : World)
    (c : List String) (hc : c ∈ (main_run args w).spawned) :
    "--namespace" ∈ c := by
  rcases shape_main_run args w with hnil | ⟨pre, rid, pp, ids, cmd, hcmd, hpre, hout⟩
  · rw [hnil] at hc
    exact absurd hc (List.not_mem_nil c)
  · have hsp : (main_run args w).spawned = [cmd] := by
      rw [hout]
      exact invoke_spawned w pre cmd rid
    rw [hsp] at hc
    have hce : c = cmd := List.mem_singleton.mp hc
    subst hce
    rw [hcmd]
    exact mem_namespace_cmd _ _ _ _ _ _ _

/-- C9 (witness): the flag is present in the concrete validate command. -/
theorem c9_namespace_flag_always_witness : "--namespace" ∈ cmd_validate := by
  have hs : (main_run args_validate w0).spawned = [cmd_validate] := rfl
  exact c9_namespace_flag_always args_validate w0 cmd_validate
    (hs ▸ List.mem_singleton.mpr rfl)

/-- C10 (confirmed): a successfully processed instance-results log yields
the aggregate line exactly when at least one record was counted (so the
percentage division is guarded by `total` being non-zero), and an empty or
all-blank log yields no events, zero counts and no aggregate line. -/
theorem c10_summary_guard (lines : List PyLine) (sec : InstSection)
    (h : instRun lines = .ok sec) :
    (sec.summaryLine = none ↔ sec.total = 0) ∧
    ((∀ l ∈ lines, l = PyLine.blank) → sec = ⟨[], 0, 0, none⟩) := by
  refine ⟨instLoop_ok_summary lines 0 0 [] sec h, ?_⟩
  intro hb
  have hall0 : instRun lines = .ok ⟨[], 0, 0, none⟩ :=
    instLoop_all_blank lines hb 0 0 []
  rw [hall0] at h
  injection h with h1
  exact h1.symm

/-- C10 (witness): a log of one blank line. -/
theorem c10_summary_guard_witness :
    ((InstSection.mk [] 0 0 none).summaryLine = none ↔
      (InstSection.mk [] 0 0 none).total = 0) ∧
    ((∀ l ∈ [PyLine.blank], l = PyLine.blank) →
      InstSection.mk [] 0 0 none = ⟨[], 0, 0, none⟩) :=
  c10_summary_guard [PyLine.blank] ⟨[], 0, 0, none⟩ rfl
